import Mathlib

/-!
Verification of the `es8` repository: a collection of markdown tutorials on
ES2017 features (generators, iterables/iterators, async/await, trailing
commas, `Object.values`/`Object.entries`, string padding) together with
standalone JavaScript snippet files.

The development shallowly embeds:
* the example snippets that the claims are about (the pop-based iterable,
  the closable iterable, `evenNumbersUntil`, `getRandomWithPromise` /
  `getRandomWithAsync`, the thenable example),
* the markdown surface itself: every fenced `js` code block of every
  markdown file as a token list, the headings and the table-of-contents
  anchor links of every markdown file,
* per-file identifier declarations and free references, file formats, and
  the external runtime APIs each snippet invokes.
-/

namespace ES8

/-- JavaScript values, restricted to the shapes the snippets produce. -/
inductive JSVal where
  | num (n : Nat)
  | str (s : String)
  | undef
  deriving DecidableEq, Repr

/-- The settled state of a JavaScript promise. -/
inductive Settled where
  | fulfilled (v : JSVal)
  | rejected (v : JSVal)
  deriving DecidableEq, Repr

/-- `src/async-await.js` lines 2-15: `getRandomWithPromise` wraps a
`setTimeout` in a promise; it rejects with the string `'some error'` when
its `error` argument is truthy and otherwise resolves with a random number
below 100 (here passed in as `rand`). -/
def getRandomWithPromise (error : Bool) (rand : Nat) : Settled :=
  if error then .rejected (.str "some error") else .fulfilled (.num rand)

/-- The `try { return await p } catch (error) { return error }` shape of an
async function body: awaiting a rejected promise throws the rejection
reason, the catch block returns it, and a value returned from an async
function fulfills the promise the async function returns. -/
def asyncTryCatchReturn : Settled → Settled
  | .fulfilled v => .fulfilled v
  | .rejected e => .fulfilled e

/-- `src/async-await.js` lines 52-66: `getRandomWithAsync` awaits
`getRandomWithPromise()` inside `try`/`catch` and returns either the
resolved value or the caught error. -/
def getRandomWithAsync (error : Bool) (rand : Nat) : Settled :=
  asyncTryCatchReturn (getRandomWithPromise error rand)

/-- An operand of `await`: either a plain value or a thenable, i.e. an
object exposing a `then` method, modelled in continuation-passing style as
the function that `then` applies to the `resolve` callback. -/
inductive Awaitable where
  | plain (v : JSVal)
  | withThen (thenFn : (JSVal → Settled) → Settled)

/-- The `await` operator (`src/async-await.js` lines 147-167): a
non-promise value is wrapped by `Promise.resolve` and yields itself; a
thenable has its `then` method called with the resolve callback, and the
value passed to `resolve` becomes the result of `await`. -/
def awaitOp : Awaitable → Settled
  | .plain v => .fulfilled v
  | .withThen thenFn => thenFn .fulfilled

/-- `src/async-await.js` lines 156-160: `var thenable = { then(resolve) {
resolve(45); } }`. -/
def thenable : Awaitable :=
  .withThen (fun resolve => resolve (.num 45))

/-- `Array.prototype.pop`: removes and returns the LAST element;
on an empty array it returns `undefined` (modelled as `none`). -/
def pop (data : List String) : Option String × List String :=
  (data.getLast?, data.dropLast)

/-- A `next()` result that carries both keys, as the pop-based example
iterator always does: `done` is a boolean and `value` is a JS value
(`none` standing for `undefined`). -/
structure IterResult where
  done : Bool
  value : Option String
  deriving DecidableEq, Repr

/-- `src/iterables-iterators.md` lines 198-216 (also `src/iteration.md`
lines 131-149): the example iterator over `data = ['foo','bar']` whose
`next` first computes `done` from `data.length === 0` and then takes
`value` from `data.pop()`. -/
def popNext (data : List String) : IterResult × List String :=
  ({ done := data.length == 0, value := (pop data).1 }, (pop data).2)

/-- The `for-of` data consumer driving an iterator: it calls `next`
repeatedly, stops as soon as a result has `done` true (discarding that
result's `value`), and otherwise consumes the result's `value`.  Returns
the consumed values together with the final (`done` = true) result.  The
fuel argument only bounds the recursion; each `next` call shrinks the
array, so `data.length + 1` fuel always suffices. -/
def forOfAux : Nat → List String → List (Option String) × IterResult
  | 0, data => ([], (popNext data).1)
  | fuel + 1, data =>
    let r := popNext data
    if r.1.done then ([], r.1)
    else
      let rest := forOfAux fuel r.2
      (r.1.value :: rest.1, rest.2)

/-- A complete `for-of` iteration over the example iterable: its
`Symbol.iterator` method allocates `data` afresh, so the loop starts from
the full array. -/
def forOf (data : List String) : List (Option String) × IterResult :=
  forOfAux (data.length + 1) data

/-- A `next()`/`return()` result of the closable iterable
(`src/iterables-iterators.md` lines 303-337, `src/iteration.md` lines
224-253): its result objects spell out only one of the two keys, so both
fields are optional — `none` means the key is absent from the object. -/
structure ORes where
  doneKey : Option Bool
  valueKey : Option String
  deriving DecidableEq, Repr

/-- The state of the closable iterable: its `done` flag and its `data`
array, initially `['foo','bar','zed']`. -/
structure CState where
  done : Bool
  data : List String
  deriving DecidableEq, Repr

/-- The closable iterable's initial state:
`{ done: false, data: ['foo','bar','zed'], ... }`. -/
def closableInit : CState :=
  { done := false, data := ["foo", "bar", "zed"] }

/-- The closable iterable's `next`:
`done = this.done || this.data.length === 0` and then
`return done ? { done: true } : { value: this.data.pop() }` — the `done`
branch omits the `value` key and the other branch omits the `done` key. -/
def closableNext (s : CState) : ORes × CState :=
  let d := s.done || s.data.length == 0
  if d then ({ doneKey := some true, valueKey := none }, s)
  else ({ doneKey := none, valueKey := (pop s.data).1 }, { s with data := (pop s.data).2 })

/-- The closable iterable's `return`: sets `this.done = true` and returns
`{ done: true }` (no `value` key). -/
def closableReturn (s : CState) : ORes × CState :=
  ({ doneKey := some true, valueKey := none }, { s with done := true })

/-- Reading `done` off a result object the way a JS consumer does: an
absent key reads as `undefined`, which is falsy — the docs' "`done` is
`false` by default". -/
def effectiveDone (r : ORes) : Bool :=
  r.doneKey.getD false

/-- `src/unnamed/part_001` lines 309-315 (likewise `src/generators.md`
lines 83-89 and `src/unnamed/part_000` lines 275-281): the loop body of
`function* evenNumbersUntil(max)`, starting from the current `value`:
`for (let value = 0; value <= max; value += 2) { if (value % 2 === 0)
yield value; }`.  The list collects the yielded values in order. -/
def evenLoop (max value : Nat) : List Nat :=
  if value ≤ max then
    (if value % 2 = 0 then [value] else []) ++ evenLoop max (value + 2)
  else []
termination_by max + 1 - value

/-- The generator `evenNumbersUntil(max)`: its loop run from `value = 0`. -/
def evenNumbersUntil (max : Nat) : List Nat :=
  evenLoop max 0

/-- The same loop with the `if (value % 2 === 0)` guard erased: every
reached `value` is yielded unconditionally. -/
def evenLoopNoGuard (max value : Nat) : List Nat :=
  if value ≤ max then value :: evenLoopNoGuard max (value + 2)
  else []
termination_by max + 1 - value

/-! ### Markdown anchors (claim C2)

GitHub-style heading slugs: lowercase the heading, drop every character
that is not a letter, a digit, a space, a hyphen or an underscore, turn
spaces into hyphens, and disambiguate repeated slugs with `-1`, `-2`, … -/

/-- Is this character kept by the GitHub slugger? -/
def slugKeep (c : Char) : Bool :=
  c.isAlpha || c.isDigit || c = ' ' || c = '-' || c = '_'

/-- The slug of a single heading, before duplicate numbering. -/
def slugify (s : String) : String :=
  String.mk ((s.toList.map Char.toLower).filter slugKeep |>.map
    (fun c => if c = ' ' then '-' else c))

/-- Append `-n` to a slug for its `n`-th repetition (`n = 0`: unchanged). -/
def slugNumbered (s : String) (n : Nat) : String :=
  if n = 0 then s else s ++ "-" ++ toString n

/-- The anchors generated for a list of headings, in order: each heading's
slug, suffixed by how many earlier headings produced the same slug. -/
def anchorsAux : List String → List String → List String
  | _, [] => []
  | seen, h :: hs =>
    let sl := slugify h
    slugNumbered sl (seen.count sl) :: anchorsAux (sl :: seen) hs

/-- The anchor set of a markdown file, from its headings in order. -/
def anchors (headings : List String) : List String :=
  anchorsAux [] headings

/-- A markdown file's heading texts and its internal anchor link targets
(the part after `#`), in document order. -/
structure MdAnchorFile where
  name : String
  headings : List String
  links : List String
  deriving DecidableEq, Repr

/-- `src/README.md`: its headings in order and its table-of-contents link
targets (lines 2-12). -/
def readmeAnchors : MdAnchorFile where
  name := "README.md"
  headings :=
    ["ES8 (ECMAScript 2017)", "Trailing Commas", "Object.values / Object.entries",
     "Object.values", "Object.entries", "Object.getOwnPropertyDescriptors",
     "String Padding", "async / await", "Promises", "Generators", "async / await",
     "await", "Classes", "Multiple Promises", "Sequentially", "Concurrently",
     "Concurrently (with `Promise.all`)", "await and thenable", "Further Reading",
     "Thanks to :beers:"]
  links :=
    ["trailing-commas", "objectvalues--objectentries", "objectvalues",
     "objectentries", "objectgetownpropertydescriptors", "string-padding",
     "async--await-1", "await", "classes", "multiple-promises",
     "await-and-thenable"]

/-- `src/iterables-iterators.md`: headings and table-of-contents link
targets (lines 3-8). -/
def iterablesAnchors : MdAnchorFile where
  name := "iterables-iterators.md"
  headings :=
    ["Iterables and Iterators", "Introduction", "Protocol", "Iterability",
     "In Practice", "Iterable Data Sources", "Plain Objects",
     "Implement Iterables", "Example", "Iterator as an Iterable",
     "Return and Throw", "Return", "Throw", "Conclusion", "Thanks to :beers:"]
  links :=
    ["protocol", "iterability", "iterable-data-sources", "implement-iterables",
     "iterator-as-an-iterable", "return-and-throw"]

/-- `src/iteration.md`: headings; it has no table of contents, hence no
internal links. -/
def iterationAnchors : MdAnchorFile where
  name := "iteration.md"
  headings :=
    ["Protocol", "Iterability", "Iterable data sources", "Plain Objects",
     "Implement Iterables", "Example", "Iterator as an iterable",
     "Return and throw"]
  links := []

/-- `src/generators.md`: headings; no table of contents. -/
def generatorsAnchors : MdAnchorFile where
  name := "generators.md"
  headings :=
    ["Generators", "Syntax", "yield", "Generators as Iterators", "Use Cases",
     "Implement Iterables", "Asynchronous Code"]
  links := []

/-- `src/unnamed/part_000`: headings; no table of contents. -/
def part000Anchors : MdAnchorFile where
  name := "unnamed/part_000"
  headings :=
    ["Generators", "Syntax", "yield", "`yield*`", "Generators as Iterators",
     "Return", "yield*", "Throw", "Generators as Data Consumer", "Use Cases",
     "Implement Iterables", "Asynchronous Code", "Conclusion",
     "Thanks to :beers:"]
  links := []

/-- `src/unnamed/part_001`: headings and table-of-contents link targets
(lines 3-13). -/
def part001Anchors : MdAnchorFile where
  name := "unnamed/part_001"
  headings :=
    ["Generators", "Introduction", "Syntax", "yield", "yield*",
     "Generators as Iterators", "Return", "yield*", "Throw",
     "Generators as Data Consumers", "Use Cases", "Implement Iterables",
     "Asynchronous Code", "Conclusion", "Thanks to :beers:"]
  links :=
    ["syntax", "yield", "yield-1", "generators-as-iterators", "return",
     "throw", "generators-as-data-consumers", "use-cases",
     "implement-iterables", "asynchronous-code", "conclusion"]

/-- All markdown files of the repository, with headings and internal
links. -/
def mdAnchorFiles : List MdAnchorFile :=
  [readmeAnchors, generatorsAnchors, iterablesAnchors, iterationAnchors,
   part000Anchors, part001Anchors]

/-! ### Fenced `js` code blocks (claim C1)

Every fenced code block of every markdown file carries the `js` language
tag.  Each block is embedded as its lexical token sequence, line by line
(comments and whitespace are not tokens; a template literal lexes into a
head / middle / tail chunk around its substitutions, exactly as the
ECMAScript lexical grammar does). -/

/-- Lexical tokens of the JavaScript snippets. -/
inductive TokK where
  | id (s : String)
  | strLit (s : String)
  | num (n : Nat)
  | thead (s : String)
  | tmid (s : String)
  | ttail (s : String)
  | kasync | kawait | kbreak | kcatch | kclass | kconst | kfor | kfun
  | kif | klet | knew | kof | kret | kthis | kthrow | ktry | ktypeof
  | kvar | kwhile | kyield | ktrue | kfalse
  | lp | rp | lb | rb | lk | rk
  | semi | comma | dot | colon | qm | arrow | asg | pasg
  | sprd | star | pct | le | gt | eq3 | or2
  deriving DecidableEq, Repr

/-- A token with its line-break flag: `nl` is true when the token is the
first token on its source line (automatic-semicolon-insertion needs
this). -/
structure Tok where
  k : TokK
  nl : Bool
  deriving DecidableEq, Repr

/-- A fenced code block: its tokens grouped by source line. -/
abbrev JsB := List (List TokK)

/-- Flatten a block's lines into a token stream, marking each line's first
token with the line-break flag. -/
def mkToks (lines : JsB) : List Tok :=
  (lines.map fun l =>
    match l with
    | [] => []
    | t :: ts => ⟨t, true⟩ :: ts.map (⟨·, false⟩)).flatten

/-- Tokens that may serve as a property name or a member name after `.`
(identifiers, literals and every reserved word, as in the ECMAScript
grammar). -/
def isPropName : TokK → Bool
  | .lp | .rp | .lb | .rb | .lk | .rk | .semi | .comma | .dot | .colon
  | .qm | .arrow | .asg | .pasg | .sprd | .star | .pct | .le | .gt
  | .eq3 | .or2 | .thead _ | .tmid _ | .ttail _ => false
  | _ => true

/-- Is the token a plain identifier? -/
def isIdTok : TokK → Bool
  | .id _ => true
  | _ => false

/-- Binary operators occurring in the snippets. -/
def isBinOp : TokK → Bool
  | .or2 | .eq3 | .le | .gt | .star | .pct => true
  | _ => false

/-- Consume one expected token. -/
def expect (k : TokK) : List Tok → Option (List Tok)
  | x :: r => if x.k == k then some r else none
  | [] => none

/-- End of statement: an explicit `;`, or automatic semicolon insertion
before a line break, a `}`, or the end of input. -/
def stmtEnd : List Tok → Option (List Tok)
  | [] => some []
  | x :: r =>
    if x.k == .semi then some r
    else if x.nl || x.k == .rb then some (x :: r)
    else none

/-- Formal parameter list after the `(`: identifiers separated by commas,
a trailing comma allowed (ES2017), closed by `)`. -/
def pParams : List Tok → Option (List Tok)
  | x :: r =>
    if x.k == .rp then some r
    else if isIdTok x.k then
      match r with
      | y :: r2 =>
        if y.k == .comma then pParams r2
        else if y.k == .rp then some r2
        else none
      | [] => none
    else none
  | [] => none

/-- Binding target of a declaration: an identifier or an array
destructuring pattern `[a, b]`. -/
def pBindTarget : List Tok → Option (List Tok)
  | x :: r =>
    match x.k with
    | .id _ => some r
    | .lk => pArrPat r
    | _ => none
  | [] => none
where
  /-- The identifiers of an array pattern, after the `[`. -/
  pArrPat : List Tok → Option (List Tok)
    | x :: r =>
      if isIdTok x.k then
        match r with
        | y :: r2 =>
          if y.k == .comma then pArrPat r2
          else if y.k == .rk then some r2
          else none
        | [] => none
      else none
    | [] => none

mutual

/-- Statement list: statements until a `}` (left unconsumed) or the end of
input.  The flags say whether we are inside a generator (`g`) and inside
an async function (`a`). -/
def pStmts (f : Nat) (g a : Bool) (t : List Tok) : Option (List Tok) :=
  match f with
  | 0 => none
  | f + 1 =>
    match t with
    | [] => some []
    | x :: r =>
      if x.k == .rb then some (x :: r)
      else do
        let r2 ← pStmt f g a (x :: r)
        pStmts f g a r2

/-- A single statement. -/
def pStmt (f : Nat) (g a : Bool) (t : List Tok) : Option (List Tok) :=
  match f with
  | 0 => none
  | f + 1 =>
    match t with
    | [] => none
    | x :: r =>
      match x.k with
      | .semi => some r
      | .lb => do
          let r2 ← pStmts f g a r
          expect .rb r2
      | .kvar | .klet | .kconst => do
          let r2 ← pBindTarget r
          let r3 ← expect .asg r2
          let (_, r4) ← pAssign f g a r3
          stmtEnd r4
      | .kfun => pFunCore f false true false r
      | .kasync =>
          match r with
          | y :: r2 =>
            if y.k == .kfun then pFunCore f true true false r2
            else do
              let (_, r3) ← pAssign f g a (x :: r)
              stmtEnd r3
          | [] => none
      | .kclass =>
          match r with
          | y :: r2 =>
            if isIdTok y.k then do
              let r3 ← expect .lb r2
              pClassBody f r3
            else none
          | [] => none
      | .kfor => do
          let r1 ← expect .lp r
          match r1 with
          | y :: z :: w :: r4 =>
            if (y.k == .klet || y.k == .kconst) && isIdTok z.k then
              if w.k == .kof then do
                let (_, r5) ← pAssign f g a r4
                let r6 ← expect .rp r5
                pStmt f g a r6
              else if w.k == .asg then do
                let (_, r5) ← pAssign f g a r4
                let r6 ← expect .semi r5
                let (_, r7) ← pAssign f g a r6
                let r8 ← expect .semi r7
                let (_, r9) ← pAssign f g a r8
                let r10 ← expect .rp r9
                pStmt f g a r10
              else none
            else none
          | _ => none
      | .kwhile => do
          let r1 ← expect .lp r
          let (_, r2) ← pAssign f g a r1
          let r3 ← expect .rp r2
          pStmt f g a r3
      | .kif => do
          let r1 ← expect .lp r
          let (_, r2) ← pAssign f g a r1
          let r3 ← expect .rp r2
          pStmt f g a r3
      | .ktry => do
          let r1 ← expect .lb r
          let r2 ← pStmts f g a r1
          let r3 ← expect .rb r2
          let r4 ← expect .kcatch r3
          let r5 ← expect .lp r4
          match r5 with
          | z :: r6 =>
            if isIdTok z.k then do
              let r7 ← expect .rp r6
              let r8 ← expect .lb r7
              let r9 ← pStmts f g a r8
              expect .rb r9
            else none
          | [] => none
      | .kret =>
          -- restricted production: no operand across a line break
          (match r with
          | [] => some []
          | y :: r2 =>
            if y.k == .semi then some r2
            else if y.nl || y.k == .rb then some (y :: r2)
            else do
              let (_, r3) ← pAssign f g a r
              stmtEnd r3)
      | .kbreak => stmtEnd r
      | .kthrow =>
          (match r with
          | [] => none
          | y :: _ =>
            if y.nl then none
            else do
              let (_, r3) ← pAssign f g a r
              stmtEnd r3)
      | _ => do
          let (_, r2) ← pAssign f g a t
          stmtEnd r2

/-- Function body common to declarations and expressions: an optional `*`
(when not async), a name (required for declarations), parameters and the
brace-enclosed body, parsed with the generator/async flags the function
introduces. -/
def pFunCore (f : Nat) (isAsync reqName _dummy : Bool) (t : List Tok) :
    Option (List Tok) :=
  match f with
  | 0 => none
  | f + 1 =>
    let p : Bool × List Tok :=
      match t with
      | y :: r2 => if !isAsync && y.k == .star then (true, r2) else (false, t)
      | [] => (false, t)
    let isGen := p.1
    let afterName : Option (List Tok) :=
      match p.2 with
      | z :: r2 =>
        if isIdTok z.k then some r2
        else if reqName then none else some (z :: r2)
      | [] => none
    do
      let r3 ← afterName
      let r4 ← expect .lp r3
      let r5 ← pParams r4
      let r6 ← expect .lb r5
      let r7 ← pStmts f isGen isAsync r6
      expect .rb r7

/-- Class body: methods, optionally `async`, until the closing `}`. -/
def pClassBody (f : Nat) (t : List Tok) : Option (List Tok) :=
  match f with
  | 0 => none
  | f + 1 =>
    match t with
    | x :: r =>
      if x.k == .rb then some r
      else
        let p : Bool × List Tok :=
          if x.k == .kasync then (true, r) else (false, x :: r)
        match p.2 with
        | y :: r3 =>
          if isPropName y.k then do
            let r4 ← expect .lp r3
            let r5 ← pParams r4
            let r6 ← expect .lb r5
            let r7 ← pStmts f false p.1 r6
            let r8 ← expect .rb r7
            pClassBody f r8
          else none
        | [] => none
    | [] => none

/-- Assignment-level expression.  The boolean in the result records
whether the parsed expression is a simple assignment target (an
identifier or a member access), which gates `=` and `+=`. -/
def pAssign (f : Nat) (g a : Bool) (t : List Tok) :
    Option (Bool × List Tok) :=
  match f with
  | 0 => none
  | f + 1 =>
    match t with
    | [] => none
    | x :: r =>
      if x.k == .kyield && g then
        -- yield expression, only valid inside a generator
        match r with
        | [] => some (false, [])
        | y :: r2 =>
          if y.k == .star then do
            let (_, r3) ← pAssign f g a r2
            some (false, r3)
          else if y.nl || y.k == .semi || y.k == .rp || y.k == .rk ||
              y.k == .rb || y.k == .comma || y.k == .colon then
            some (false, y :: r2)
          else do
            let (_, r3) ← pAssign f g a r
            some (false, r3)
      else if x.k == .kasync then
        -- async arrow `async (…) => …`, else an async function expression
        (match r with
        | y :: r2 =>
          if y.k == .lp then
            match pParams r2 with
            | some (z :: r3) =>
              if z.k == .arrow then do
                let r4 ← pArrowBody f true r3
                some (false, r4)
              else pCondAssign f g a t
            | _ => pCondAssign f g a t
          else pCondAssign f g a t
        | [] => none)
      else if isIdTok x.k then
        -- single-parameter arrow `e => …`
        match r with
        | y :: r2 =>
          if y.k == .arrow then do
            let r3 ← pArrowBody f false r2
            some (false, r3)
          else pCondAssign f g a t
        | [] => some (true, [])
      else if x.k == .lp then
        -- parenthesised-parameter arrow `(…) => …`, else fall back
        match pParams r with
        | some (z :: r3) =>
          if z.k == .arrow then do
            let r4 ← pArrowBody f false r3
            some (false, r4)
          else pCondAssign f g a t
        | _ => pCondAssign f g a t
      else pCondAssign f g a t

/-- Conditional / binary / assignment tail after arrow detection. -/
def pCondAssign (f : Nat) (g a : Bool) (t : List Tok) :
    Option (Bool × List Tok) :=
  match f with
  | 0 => none
  | f + 1 => do
    let (fl, r) ← pCond f g a t
    match r with
    | y :: r2 =>
      if (y.k == .asg || y.k == .pasg) && fl then do
        let (_, r3) ← pAssign f g a r2
        some (false, r3)
      else some (fl, r)
    | [] => some (fl, [])

/-- Conditional expression: binary expression with optional `? … : …`. -/
def pCond (f : Nat) (g a : Bool) (t : List Tok) :
    Option (Bool × List Tok) :=
  match f with
  | 0 => none
  | f + 1 => do
    let (fl, r) ← pBin f g a t
    match r with
    | y :: r2 =>
      if y.k == .qm then do
        let (_, r3) ← pAssign f g a r2
        let r4 ← expect .colon r3
        let (_, r5) ← pAssign f g a r4
        some (false, r5)
      else some (fl, r)
    | [] => some (fl, [])

/-- Binary-operator chain over unary expressions.  (Flat associativity:
precedence does not change which token strings are accepted.) -/
def pBin (f : Nat) (g a : Bool) (t : List Tok) : Option (Bool × List Tok) :=
  match f with
  | 0 => none
  | f + 1 => do
    let (fl, r) ← pUnary f g a t
    pBinTail f g a fl r

/-- The `op unary` repetitions of a binary chain. -/
def pBinTail (f : Nat) (g a : Bool) (fl : Bool) (t : List Tok) :
    Option (Bool × List Tok) :=
  match f with
  | 0 => none
  | f + 1 =>
    match t with
    | y :: r2 =>
      if isBinOp y.k then do
        let (_, r3) ← pUnary f g a r2
        pBinTail f g a false r3
      else some (fl, t)
    | [] => some (fl, [])

/-- Unary operators (`typeof`, `new`, `await` inside async functions)
over a primary expression with its member/call chain. -/
def pUnary (f : Nat) (g a : Bool) (t : List Tok) : Option (Bool × List Tok) :=
  match f with
  | 0 => none
  | f + 1 =>
    match t with
    | [] => none
    | x :: r =>
      match x.k with
      | .ktypeof => do
          let (_, r2) ← pUnary f g a r
          some (false, r2)
      | .knew => do
          let (_, r2) ← pUnary f g a r
          some (false, r2)
      | .kawait =>
          if a then do
            let (_, r2) ← pUnary f g a r
            some (false, r2)
          else do
            let (fl, r2) ← pPrimary f g a t
            pChain f g a fl r2
      | _ => do
          let (fl, r2) ← pPrimary f g a t
          pChain f g a fl r2

/-- Member access and call chain: `.name`, `[expr]`, `(args)`. -/
def pChain (f : Nat) (g a : Bool) (fl : Bool) (t : List Tok) :
    Option (Bool × List Tok) :=
  match f with
  | 0 => none
  | f + 1 =>
    match t with
    | x :: r2 =>
      match x.k with
      | .dot =>
        (match r2 with
        | y :: r3 => if isPropName y.k then pChain f g a true r3 else none
        | [] => none)
      | .lk => do
          let (_, r3) ← pAssign f g a r2
          let r4 ← expect .rk r3
          pChain f g a true r4
      | .lp => do
          let r3 ← pArgs f g a r2
          pChain f g a false r3
      | _ => some (fl, t)
    | [] => some (fl, [])

/-- Call arguments after the `(`: assignment expressions separated by
commas, trailing comma allowed (ES2017), closed by `)`. -/
def pArgs (f : Nat) (g a : Bool) (t : List Tok) : Option (List Tok) :=
  match f with
  | 0 => none
  | f + 1 =>
    match t with
    | x :: r =>
      if x.k == .rp then some r
      else do
        let start := if x.k == .sprd then r else x :: r
        let (_, r4) ← pAssign f g a start
        match r4 with
        | y :: r5 =>
          if y.k == .comma then pArgs f g a r5
          else if y.k == .rp then some r5
          else none
        | [] => none
    | [] => none

/-- Array literal elements after the `[`: assignment expressions or
spreads, separated by commas, closed by `]`. -/
def pArrElems (f : Nat) (g a : Bool) (t : List Tok) : Option (List Tok) :=
  match f with
  | 0 => none
  | f + 1 =>
    match t with
    | x :: r =>
      if x.k == .rk then some r
      else do
        let start := if x.k == .sprd then r else x :: r
        let (_, r4) ← pAssign f g a start
        match r4 with
        | y :: r5 =>
          if y.k == .comma then pArrElems f g a r5
          else if y.k == .rk then some r5
          else none
        | [] => none
    | [] => none

/-- Object literal members after the `{`: `name: expr` properties and
`name(params) { body }` methods (names may be identifiers, literals,
reserved words, or computed `[expr]`), separated by commas, closed by
`}`. -/
def pObj (f : Nat) (g a : Bool) (t : List Tok) : Option (List Tok) :=
  match f with
  | 0 => none
  | f + 1 =>
    match t with
    | x :: r2 =>
      if x.k == .rb then some r2
      else do
        let r3 ←
          if x.k == .lk then do
            let (_, rr) ← pAssign f g a r2
            expect .rk rr
          else if isPropName x.k then some r2 else none
        match r3 with
        | y :: r4 =>
          if y.k == .colon then do
            let (_, r5) ← pAssign f g a r4
            pObjSep f g a r5
          else if y.k == .lp then do
            let r5 ← pParams r4
            let r6 ← expect .lb r5
            let r7 ← pStmts f false false r6
            let r8 ← expect .rb r7
            pObjSep f g a r8
          else none
        | [] => none
    | [] => none

/-- Separator after an object member: `,` to continue or `}` to close. -/
def pObjSep (f : Nat) (g a : Bool) (t : List Tok) : Option (List Tok) :=
  match f with
  | 0 => none
  | f + 1 =>
    match t with
    | x :: r2 =>
      if x.k == .comma then pObj f g a r2
      else if x.k == .rb then some r2
      else none
    | [] => none

/-- Template literal substitutions after the head chunk: an expression,
then a middle chunk (continue) or the tail chunk (finish). -/
def pTpl (f : Nat) (g a : Bool) (t : List Tok) : Option (List Tok) :=
  match f with
  | 0 => none
  | f + 1 => do
    let (_, r2) ← pAssign f g a t
    match r2 with
    | x :: r3 =>
      match x.k with
      | .tmid _ => pTpl f g a r3
      | .ttail _ => some r3
      | _ => none
    | [] => none

/-- Arrow function body: a brace-enclosed statement body or a bare
assignment expression, with fresh generator/async flags. -/
def pArrowBody (f : Nat) (isAsync : Bool) (t : List Tok) :
    Option (List Tok) :=
  match f with
  | 0 => none
  | f + 1 =>
    match t with
    | x :: r =>
      if x.k == .lb then do
        let r2 ← pStmts f false isAsync r
        expect .rb r2
      else do
        let (_, r2) ← pAssign f false isAsync t
        some r2
    | [] => none

/-- Primary expressions. -/
def pPrimary (f : Nat) (g a : Bool) (t : List Tok) :
    Option (Bool × List Tok) :=
  match f with
  | 0 => none
  | f + 1 =>
    match t with
    | [] => none
    | x :: r =>
      match x.k with
      | .id _ => some (true, r)
      | .kthis => some (false, r)
      | .kyield => if g then none else some (true, r)
      | .kawait => if a then none else some (true, r)
      | .strLit _ => some (false, r)
      | .num _ => some (false, r)
      | .ktrue | .kfalse => some (false, r)
      | .thead _ => do
          let r2 ← pTpl f g a r
          some (false, r2)
      | .lp => do
          let (fl, r2) ← pAssign f g a r
          let r3 ← expect .rp r2
          some (fl, r3)
      | .lk => do
          let r2 ← pArrElems f g a r
          some (false, r2)
      | .lb => do
          let r2 ← pObj f g a r
          some (false, r2)
      | .kfun => do
          let r2 ← pFunCore f false false false r
          some (false, r2)
      | .kasync =>
          (match r with
          | y :: r2 =>
            if y.k == .kfun then do
              let r3 ← pFunCore f true false false r2
              some (false, r3)
            else none
          | [] => none)
      | _ => none

end

/-- Does the token stream of a block parse as an ECMAScript Script?  The
acceptor above models the ECMAScript grammar restricted to the constructs
occurring in this repository's snippets; constructs outside the fragment
are rejected, so acceptance is sound for "a standard parser parses
this". -/
def jsAccept (b : JsB) : Bool :=
  let toks := mkToks b
  match pStmts (100 + 10 * toks.length) false false toks with
  | some [] => true
  | _ => false

/-- Fenced block 1 of `src/README.md` (opening fence at line 20). -/
def jbR1 : JsB :=
  [[.kfun, .id "foo", .lp],
  [.id "a", .comma],
  [.id "b", .comma],
  [.id "c", .comma],
  [.rp, .lb, .rb],
  [.id "foo", .lp],
  [.num 1, .comma],
  [.num 2, .comma],
  [.num 3, .comma],
  [.rp]]

/-- Fenced block 2 of `src/README.md` (opening fence at line 42). -/
def jbR2 : JsB :=
  [[.kvar, .id "obj", .asg, .lb],
  [.id "foo", .colon, .strLit "Mr.Foo", .comma],
  [.id "bar", .colon, .strLit "Mr.Bar"],
  [.rb],
  [.id "Object", .dot, .id "values", .lp, .id "obj", .rp]]

/-- Fenced block 3 of `src/README.md` (opening fence at line 55). -/
def jbR3 : JsB :=
  [[.id "Object", .dot, .id "entries", .lp, .id "obj", .rp]]

/-- Fenced block 4 of `src/README.md` (opening fence at line 63). -/
def jbR4 : JsB :=
  [[.id "console", .dot, .id "log", .lp, .id "Object", .dot, .id "getOwnPropertyDescriptors", .lp, .id "obj", .rp, .rp]]

/-- Fenced block 5 of `src/README.md` (opening fence at line 81). -/
def jbR5 : JsB :=
  [[.strLit "foo", .dot, .id "padStart", .lp, .num 10, .rp],
  [.strLit "foo", .dot, .id "padStart", .lp, .num 10, .comma, .strLit "123", .rp],
  [.strLit "foo", .dot, .id "padStart", .lp, .num 10, .comma, .id "undefined", .rp],
  [.strLit "foo", .dot, .id "padEnd", .lp, .num 10, .rp],
  [.strLit "foo", .dot, .id "padEnd", .lp, .num 10, .comma, .strLit "123", .rp],
  [.strLit "foo", .dot, .id "padEnd", .lp, .num 10, .comma, .id "undefined", .rp]]

/-- Fenced block 6 of `src/README.md` (opening fence at line 99). -/
def jbR6 : JsB :=
  [[.gt, .id "Object", .dot, .id "getPrototypeOf", .lp, .kasync, .kfun, .lp, .rp, .lb, .rb, .rp],
  [.id "AsyncFunction", .lb, .rb]]

/-- Fenced block 7 of `src/README.md` (opening fence at line 117). -/
def jbR7 : JsB :=
  [[.kvar, .id "getRandomWithPromise", .asg, .lp, .id "error", .rp, .arrow, .lb],
  [.kret, .knew, .id "Promise", .lp, .lp, .id "resolve", .comma, .id "reject", .rp, .arrow, .lb],
  [.id "setTimeout", .lp, .lp, .rp, .arrow, .lb],
  [.kif, .lp, .id "error", .rp, .lb],
  [.id "reject", .lp, .strLit "some error", .rp, .semi, .kret, .semi],
  [.rb],
  [.id "resolve", .lp, .id "Math", .dot, .id "floor", .lp, .id "Math", .dot, .id "random", .lp, .rp, .star, .num 100, .rp, .rp, .semi],
  [.rb, .comma, .num 200, .rp, .semi],
  [.rb, .rp, .semi],
  [.rb]]

/-- Fenced block 8 of `src/README.md` (opening fence at line 134). -/
def jbR8 : JsB :=
  [[.id "getRandomWithPromise", .lp, .rp],
  [.dot, .id "then", .lp, .lp, .id "result", .rp, .arrow, .lb],
  [.id "console", .dot, .id "log", .lp, .thead "Your random number is ", .id "result", .ttail "!", .rp, .semi],
  [.rb, .rp],
  [.dot, .kcatch, .lp, .lp, .id "error", .rp, .arrow, .lb],
  [.id "console", .dot, .id "log", .lp, .thead "Ups! Something went wrong! Details: ", .id "error", .ttail "", .rp, .semi],
  [.rb, .rp, .semi]]

/-- Fenced block 9 of `src/README.md` (opening fence at line 154). -/
def jbR9 : JsB :=
  [[.kvar, .id "getRandomWithGenerator", .asg, .lp, .id "generator", .comma, .id "error", .rp, .arrow, .lb],
  [.kvar, .id "g", .asg, .id "generator", .lp, .rp, .semi],
  [.id "g", .dot, .id "next", .lp, .rp, .semi],
  [.id "setTimeout", .lp, .kfun, .lp, .rp, .lb],
  [.kif, .lp, .id "error", .rp, .lb],
  [.id "g", .dot, .kthrow, .lp, .strLit "some error", .rp, .semi, .kret, .semi],
  [.rb],
  [.id "g", .dot, .id "next", .lp, .id "Math", .dot, .id "floor", .lp, .id "Math", .dot, .id "random", .lp, .rp, .star, .num 100, .rp, .rp, .semi],
  [.rb, .comma, .num 200, .rp, .semi],
  [.rb]]

/-- Fenced block 10 of `src/README.md` (opening fence at line 177). -/
def jbR10 : JsB :=
  [[.id "getRandomWithGenerator", .lp],
  [.kfun, .star, .id "onFulfill", .lp, .rp, .lb],
  [.ktry, .lb],
  [.kvar, .id "result", .asg, .kyield, .semi],
  [.id "console", .dot, .id "log", .lp, .thead "Your random number is ", .id "result", .ttail "!", .rp, .semi],
  [.rb, .kcatch, .lp, .id "error", .rp, .lb],
  [.id "console", .dot, .id "log", .lp, .thead "Ups! Something went wrong! Details: ", .id "error", .ttail "", .rp, .semi],
  [.rb],
  [.rb],
  [.rp, .semi]]

/-- Fenced block 11 of `src/README.md` (opening fence at line 207). -/
def jbR11 : JsB :=
  [[.kasync, .kfun, .lp, .rp, .lb],
  [.rb]]

/-- Fenced block 12 of `src/README.md` (opening fence at line 216). -/
def jbR12 : JsB :=
  [[.kconst, .id "getRandomWithAsync", .asg, .kasync, .lp, .rp, .arrow, .lb],
  [.ktry, .lb],
  [.kret, .kawait, .id "getRandomWithPromise", .lp, .rp, .semi],
  [.rb, .kcatch, .lp, .id "error", .rp, .lb],
  [.kret, .id "error", .semi],
  [.rb],
  [.rb]]

/-- Fenced block 13 of `src/README.md` (opening fence at line 241). -/
def jbR13 : JsB :=
  [[.id "getRandomWithAsync", .lp, .rp],
  [.dot, .id "then", .lp, .lp, .id "result", .rp, .arrow, .lb],
  [.id "console", .dot, .id "log", .lp, .thead "Your random number is ", .id "result", .ttail "!", .rp, .semi],
  [.rb, .rp],
  [.dot, .kcatch, .lp, .lp, .id "error", .rp, .arrow, .lb],
  [.id "console", .dot, .id "log", .lp, .thead "Ups! Something went wrong! Details: ", .id "error", .ttail "", .rp, .semi],
  [.rb, .rp, .semi]]

/-- Fenced block 14 of `src/README.md` (opening fence at line 255). -/
def jbR14 : JsB :=
  [[.kvar, .id "random", .asg, .kawait, .id "getRandomWithAsync", .lp, .rp, .semi]]

/-- Fenced block 15 of `src/README.md` (opening fence at line 260). -/
def jbR15 : JsB :=
  [[.lp, .kasync, .kfun, .lp, .rp, .lb],
  [.id "console", .dot, .id "log", .lp, .thead "Your random number is ", .kawait, .id "getRandomWithAsync", .lp, .rp, .ttail "!", .rp, .semi],
  [.rb, .rp, .lp, .rp, .semi]]

/-- Fenced block 16 of `src/README.md` (opening fence at line 269). -/
def jbR16 : JsB :=
  [[.kclass, .id "Random", .lb],
  [.kasync, .id "getRandom", .lp, .rp, .lb],
  [.kret, .kawait, .id "getRandomWithPromise", .lp, .rp, .semi],
  [.rb],
  [.rb],
  [.lp, .kasync, .kfun, .lp, .rp, .lb],
  [.kvar, .id "random", .asg, .knew, .id "Random", .lp, .rp, .semi],
  [.id "console", .dot, .id "log", .lp, .thead "Your random number is ", .kawait, .id "random", .dot, .id "getRandom", .lp, .rp, .ttail "!", .rp],
  [.rb, .rp, .lp, .rp, .semi]]

/-- Fenced block 17 of `src/README.md` (opening fence at line 289). -/
def jbR17 : JsB :=
  [[.lp, .kasync, .kfun, .lp, .rp, .lb],
  [.kvar, .id "a", .asg, .kawait, .id "getRandomWithPromise", .lp, .rp, .semi],
  [.kvar, .id "b", .asg, .kawait, .id "getRandomWithPromise", .lp, .rp, .semi],
  [.id "console", .dot, .id "log", .lp, .thead "Your random numbers are ", .id "a", .tmid " and ", .id "b", .ttail "!", .rp, .semi],
  [.rb, .rp, .lp, .rp, .semi]]

/-- Fenced block 18 of `src/README.md` (opening fence at line 308). -/
def jbR18 : JsB :=
  [[.lp, .kasync, .kfun, .lp, .rp, .lb],
  [.kvar, .id "aPromise", .asg, .id "getRandomWithPromise", .lp, .rp, .semi],
  [.kvar, .id "bPromise", .asg, .id "getRandomWithPromise", .lp, .rp, .semi],
  [.kvar, .id "a", .asg, .kawait, .id "aPromise", .semi],
  [.kvar, .id "b", .asg, .kawait, .id "bPromise", .semi],
  [.id "console", .dot, .id "log", .lp, .thead "Your random numbers are ", .id "a", .tmid " and ", .id "b", .ttail "!", .rp, .semi],
  [.rb, .rp, .lp, .rp, .semi]]

/-- Fenced block 19 of `src/README.md` (opening fence at line 331). -/
def jbR19 : JsB :=
  [[.lp, .kasync, .kfun, .lp, .rp, .lb],
  [.kvar, .lk, .id "a", .comma, .id "b", .rk, .asg, .kawait, .id "Promise", .dot, .id "all", .lp, .lk],
  [.id "getRandomWithPromise", .lp, .rp, .comma],
  [.id "getRandomWithPromise", .lp, .rp],
  [.rk, .rp, .semi],
  [.id "console", .dot, .id "log", .lp, .thead "Your random numbers are ", .id "a", .tmid " and ", .id "b", .ttail "!", .rp, .semi],
  [.rb, .rp, .lp, .rp, .semi]]

/-- Fenced block 20 of `src/README.md` (opening fence at line 345). -/
def jbR20 : JsB :=
  [[.lp, .kasync, .kfun, .lp, .rp, .lb],
  [.kvar, .id "random", .asg, .kawait, .num 3, .semi],
  [.id "console", .dot, .id "log", .lp, .id "random", .rp, .semi],
  [.rb, .rp, .lp, .rp, .semi]]

/-- Fenced block 21 of `src/README.md` (opening fence at line 356). -/
def jbR21 : JsB :=
  [[.kvar, .id "thenable", .asg, .lb],
  [.id "then", .lp, .id "resolve", .rp, .lb],
  [.id "resolve", .lp, .num 45, .rp, .semi],
  [.rb],
  [.rb, .semi],
  [.lp, .kasync, .kfun, .lp, .rp, .lb],
  [.kvar, .id "random", .asg, .kawait, .id "thenable", .semi],
  [.id "console", .dot, .id "log", .lp, .id "random", .rp, .semi],
  [.rb, .rp, .lp, .rp, .semi]]

/-- Fenced block 1 of `src/generators.md` (opening fence at line 13). -/
def jbG1 : JsB :=
  [[.kfun, .star, .id "generator", .lp, .rp, .lb],
  [.kyield, .strLit "foo"],
  [.rb]]

/-- Fenced block 2 of `src/generators.md` (opening fence at line 25). -/
def jbG2 : JsB :=
  [[.kconst, .id "g", .asg, .id "generator", .lp, .rp],
  [.id "g", .dot, .id "next", .lp, .rp],
  [.id "g", .dot, .id "next", .lp, .rp]]

/-- Fenced block 3 of `src/generators.md` (opening fence at line 48). -/
def jbG3 : JsB :=
  [[.kconst, .id "g", .asg, .id "generator", .lp, .rp],
  [.ktypeof, .id "g", .lk, .id "Symbol", .dot, .id "iterator", .rk]]

/-- Fenced block 4 of `src/generators.md` (opening fence at line 55). -/
def jbG4 : JsB :=
  [[.kconst, .id "iterator", .asg, .id "g", .lk, .id "Symbol", .dot, .id "iterator", .rk, .lp, .rp],
  [.ktypeof, .id "iterator", .dot, .id "next"]]

/-- Fenced block 5 of `src/generators.md` (opening fence at line 62). -/
def jbG5 : JsB :=
  [[.kfor, .lp, .klet, .id "e", .kof, .id "iterator", .rp, .lb],
  [.id "console", .dot, .id "log", .lp, .id "e", .rp],
  [.rb]]

/-- Fenced block 6 of `src/generators.md` (opening fence at line 82). -/
def jbG6 : JsB :=
  [[.kfun, .star, .id "evenNumbersUntil", .lp, .id "max", .rp, .lb],
  [.kfor, .lp, .klet, .id "value", .asg, .num 0, .semi, .id "value", .le, .id "max", .semi, .id "value", .pasg, .num 2, .rp, .lb],
  [.kif, .lp, .id "value", .pct, .num 2, .eq3, .num 0, .rp, .kyield, .id "value", .semi],
  [.rb],
  [.rb],
  [.kfor, .lp, .klet, .id "e", .kof, .id "evenNumbersUntil", .lp, .num 10, .rp, .rp, .lb],
  [.id "console", .dot, .id "log", .lp, .id "e", .rp],
  [.rb]]

/-- Fenced block 7 of `src/generators.md` (opening fence at line 108). -/
def jbG7 : JsB :=
  [[.kfun, .id "fetchStory", .lp, .rp, .lb],
  [.id "get", .lp, .strLit "story.json", .rp],
  [.dot, .id "then", .lp, .kfun, .lp, .id "response", .rp, .lb],
  [.kret, .id "JSON", .dot, .id "parse", .lp, .id "response", .rp],
  [.rb, .rp],
  [.dot, .id "then", .lp, .kfun, .lp, .id "response", .rp, .lb],
  [.id "console", .dot, .id "log", .lp, .strLit "Yey JSON!", .comma, .id "response", .rp],
  [.rb, .rp],
  [.rb]]

/-- Fenced block 8 of `src/generators.md` (opening fence at line 121). -/
def jbG8 : JsB :=
  [[.kconst, .id "fetchStory", .asg, .id "co", .dot, .id "wrap", .lp, .kfun, .star, .lp, .rp, .lb],
  [.ktry, .lb],
  [.kconst, .id "response", .asg, .kyield, .id "get", .lp, .strLit "story.json", .rp],
  [.kconst, .id "text", .asg, .kyield, .id "JSON", .dot, .id "parse", .lp, .id "response", .rp],
  [.id "console", .dot, .id "log", .lp, .strLit "Yey JSON!", .comma, .id "response", .rp],
  [.rb],
  [.rb, .rp]]

/-- Fenced block 9 of `src/generators.md` (opening fence at line 132). -/
def jbG9 : JsB :=
  [[.kasync, .kfun, .id "fetchStory", .lp, .rp, .lb],
  [.ktry, .lb],
  [.kconst, .id "response", .asg, .kawait, .id "get", .lp, .strLit "story.json", .rp],
  [.kconst, .id "text", .asg, .kawait, .id "JSON", .dot, .id "parse", .lp, .id "response", .rp],
  [.id "console", .dot, .id "log", .lp, .strLit "Yey JSON!", .comma, .id "response", .rp],
  [.rb],
  [.rb]]

/-- Fenced block 1 of `src/iterables-iterators.md` (opening fence at line 22). -/
def jbII1 : JsB :=
  [[.kconst, .id "iterable", .asg, .lb],
  [.lk, .id "Symbol", .dot, .id "iterator", .rk, .lp, .rp, .colon, .id "iterator"],
  [.rb]]

/-- Fenced block 2 of `src/iterables-iterators.md` (opening fence at line 31). -/
def jbII2 : JsB :=
  [[.kconst, .id "iterator", .asg, .lb],
  [.id "next", .lp, .rp, .lb],
  [.id "value", .colon, .id "any", .comma],
  [.id "done", .colon, .id "boolean"],
  [.rb],
  [.rb]]

/-- Fenced block 3 of `src/iterables-iterators.md` (opening fence at line 53). -/
def jbII3 : JsB :=
  [[.kfor, .lp, .klet, .id "e", .kof, .lk, .num 1, .comma, .num 2, .comma, .num 3, .rk, .rp, .lb],
  [.id "console", .dot, .id "log", .lp, .id "e", .rp],
  [.rb]]

/-- Fenced block 4 of `src/iterables-iterators.md` (opening fence at line 76). -/
def jbII4 : JsB :=
  [[.kconst, .id "array", .asg, .lk, .strLit "foo", .comma, .strLit "bar", .comma, .strLit "zed", .rk],
  [.id "console", .dot, .id "log", .lp, .ktypeof, .id "array", .lk, .id "Symbol", .dot, .id "iterator", .rk, .rp],
  [.kconst, .id "iterator", .asg, .id "array", .lk, .id "Symbol", .dot, .id "iterator", .rk, .lp, .rp],
  [.id "console", .dot, .id "log", .lp, .ktypeof, .id "iterator", .dot, .id "next", .rp],
  [.id "iterator", .dot, .id "next", .lp, .rp],
  [.id "iterator", .dot, .id "next", .lp, .rp],
  [.id "iterator", .dot, .id "next", .lp, .rp],
  [.id "iterator", .dot, .id "next", .lp, .rp]]

/-- Fenced block 5 of `src/iterables-iterators.md` (opening fence at line 101). -/
def jbII5 : JsB :=
  [[.kfor, .lp, .klet, .id "e", .kof, .lk, .strLit "foo", .comma, .strLit "bar", .rk, .rp, .lb],
  [.id "console", .dot, .id "log", .lp, .id "e", .rp],
  [.rb]]

/-- Fenced block 6 of `src/iterables-iterators.md` (opening fence at line 110). -/
def jbII6 : JsB :=
  [[.kfor, .lp, .klet, .id "c", .kof, .strLit "foo", .rp, .lb],
  [.id "console", .dot, .id "log", .lp, .id "c", .rp],
  [.rb]]

/-- Fenced block 7 of `src/iterables-iterators.md` (opening fence at line 120). -/
def jbII7 : JsB :=
  [[.kfor, .lp, .klet, .id "pair", .kof, .knew, .id "Map", .lp, .lk, .lk, .strLit "foo", .comma, .strLit "Mr.Foo", .rk, .comma, .lk, .strLit "bar", .comma, .strLit "Mr.Bar", .rk, .rk, .rp, .rp, .lb],
  [.id "console", .dot, .id "log", .lp, .id "pair", .rp],
  [.rb]]

/-- Fenced block 8 of `src/iterables-iterators.md` (opening fence at line 129). -/
def jbII8 : JsB :=
  [[.kfor, .lp, .klet, .id "e", .kof, .knew, .id "Set", .lp, .lk, .strLit "foo", .comma, .strLit "bar", .rk, .rp, .rp, .lb],
  [.id "console", .dot, .id "log", .lp, .id "e", .rp],
  [.rb]]

/-- Fenced block 9 of `src/iterables-iterators.md` (opening fence at line 139). -/
def jbII9 : JsB :=
  [[.kfun, .id "foo", .lp, .rp, .lb],
  [.kfor, .lp, .klet, .id "e", .kof, .id "arguments", .rp, .lb],
  [.id "console", .dot, .id "log", .lp, .id "e", .rp],
  [.rb],
  [.rb],
  [.id "foo", .lp, .strLit "bar", .comma, .strLit "zed", .rp]]

/-- Fenced block 10 of `src/iterables-iterators.md` (opening fence at line 168). -/
def jbII10 : JsB :=
  [[.klet, .id "Hugo", .asg, .lb],
  [.id "fullName", .colon, .strLit "Hugo Matias", .comma],
  [.id "toString", .lp, .rp, .lb],
  [.kret, .thead "", .kthis, .dot, .id "fullName", .ttail ""],
  [.rb],
  [.rb]]

/-- Fenced block 11 of `src/iterables-iterators.md` (opening fence at line 197). -/
def jbII11 : JsB :=
  [[.kconst, .id "iterable", .asg, .lb],
  [.lk, .id "Symbol", .dot, .id "iterator", .rk, .lp, .rp, .lb],
  [.klet, .id "data", .asg, .lk, .strLit "foo", .comma, .strLit "bar", .rk],
  [.kret, .lb],
  [.id "next", .lp, .rp, .lb],
  [.kret, .lb],
  [.id "done", .colon, .id "data", .dot, .id "length", .eq3, .num 0, .comma],
  [.id "value", .colon, .id "data", .dot, .id "pop", .lp, .rp],
  [.rb],
  [.rb],
  [.rb],
  [.rb],
  [.rb],
  [.kfor, .lp, .klet, .id "e", .kof, .id "iterable", .rp, .lb],
  [.id "console", .dot, .id "log", .lp, .id "e", .rp],
  [.rb]]

/-- Fenced block 12 of `src/iterables-iterators.md` (opening fence at line 222). -/
def jbII12 : JsB :=
  [[.lb],
  [.id "value", .colon, .strLit "foo", .comma],
  [.id "done", .colon, .kfalse],
  [.rb]]

/-- Fenced block 14 of `src/iterables-iterators.md` (opening fence at line 236). -/
def jbII14 : JsB :=
  [[.lb],
  [.id "value", .colon, .id "undefined", .comma],
  [.id "done", .colon, .ktrue],
  [.rb]]

/-- Fenced block 15 of `src/iterables-iterators.md` (opening fence at line 254). -/
def jbII15 : JsB :=
  [[.kconst, .id "iterable", .asg, .lb],
  [.id "data", .colon, .lk, .strLit "foo", .comma, .strLit "bar", .rk, .comma],
  [.id "next", .lp, .rp, .lb],
  [.kret, .lb],
  [.id "done", .colon, .kthis, .dot, .id "data", .dot, .id "length", .eq3, .num 0, .comma],
  [.id "value", .colon, .kthis, .dot, .id "data", .dot, .id "pop", .lp, .rp],
  [.rb],
  [.rb, .comma],
  [.lk, .id "Symbol", .dot, .id "iterator", .rk, .lp, .rp, .lb],
  [.kret, .kthis],
  [.rb],
  [.rb]]

/-- Fenced block 16 of `src/iterables-iterators.md` (opening fence at line 275). -/
def jbII16 : JsB :=
  [[.kconst, .id "array", .asg, .lk, .strLit "foo", .comma, .strLit "bar", .comma, .strLit "zed", .rk],
  [.kconst, .id "iterator", .asg, .id "array", .lk, .id "Symbol", .dot, .id "iterator", .rk, .lp, .rp],
  [.kfor, .lp, .klet, .id "e", .kof, .id "iterator", .rp, .lb],
  [.id "console", .dot, .id "log", .lp, .id "e", .rp],
  [.kbreak],
  [.rb],
  [.kfor, .lp, .klet, .id "e", .kof, .id "iterator", .rp, .lb],
  [.id "console", .dot, .id "log", .lp, .id "e", .rp],
  [.rb]]

/-- Fenced block 17 of `src/iterables-iterators.md` (opening fence at line 302). -/
def jbII17 : JsB :=
  [[.kconst, .id "iterable", .asg, .lb],
  [.id "done", .colon, .kfalse, .comma],
  [.id "data", .colon, .lk, .strLit "foo", .comma, .strLit "bar", .comma, .strLit "zed", .rk, .comma],
  [.id "next", .lp, .rp, .lb],
  [.id "done", .asg, .kthis, .dot, .id "done", .or2, .kthis, .dot, .id "data", .dot, .id "length", .eq3, .num 0],
  [.kret, .id "done", .qm],
  [.lb],
  [.id "done", .colon, .ktrue],
  [.rb, .colon],
  [.lb],
  [.id "value", .colon, .kthis, .dot, .id "data", .dot, .id "pop", .lp, .rp],
  [.rb],
  [.rb, .comma],
  [.kret, .lp, .rp, .lb],
  [.kthis, .dot, .id "done", .asg, .ktrue],
  [.kret, .lb],
  [.id "done", .colon, .ktrue],
  [.rb],
  [.rb, .comma],
  [.lk, .id "Symbol", .dot, .id "iterator", .rk, .lp, .rp, .lb],
  [.kret, .kthis],
  [.rb],
  [.rb],
  [.kconst, .id "iterator", .asg, .id "iterable", .lk, .id "Symbol", .dot, .id "iterator", .rk, .lp, .rp],
  [.id "iterator", .dot, .id "next", .lp, .rp],
  [.id "iterator", .dot, .kret, .lp, .rp],
  [.id "iterator", .dot, .id "next", .lp, .rp]]

/-- Fenced block 4 of `src/iteration.md` (opening fence at line 65). -/
def jbIT4 : JsB :=
  [[.kfor, .lp, .kconst, .id "e", .kof, .lk, .strLit "foo", .comma, .strLit "bar", .rk, .rp, .lb],
  [.id "console", .dot, .id "log", .lp, .id "e", .rp],
  [.rb]]

/-- Fenced block 5 of `src/iteration.md` (opening fence at line 73). -/
def jbIT5 : JsB :=
  [[.kfor, .lp, .kconst, .id "c", .kof, .strLit "foo", .rp, .lb],
  [.id "console", .dot, .id "log", .lp, .id "c", .rp],
  [.rb]]

/-- Fenced block 6 of `src/iteration.md` (opening fence at line 82). -/
def jbIT6 : JsB :=
  [[.kfor, .lp, .kconst, .id "pair", .kof, .knew, .id "Map", .lp, .lk, .lk, .strLit "foo", .comma, .strLit "Mr.Foo", .rk, .comma, .lk, .strLit "bar", .comma, .strLit "Mr.Bar", .rk, .rk, .rp, .rp, .lb],
  [.id "console", .dot, .id "log", .lp, .id "pair", .rp],
  [.rb]]

/-- Fenced block 7 of `src/iteration.md` (opening fence at line 90). -/
def jbIT7 : JsB :=
  [[.kfor, .lp, .kconst, .id "e", .kof, .knew, .id "Set", .lp, .lk, .strLit "foo", .comma, .strLit "bar", .rk, .rp, .rp, .lb],
  [.id "console", .dot, .id "log", .lp, .id "e", .rp],
  [.rb]]

/-- Fenced block 8 of `src/iteration.md` (opening fence at line 98). -/
def jbIT8 : JsB :=
  [[.kfun, .id "foo", .lp, .rp, .lb],
  [.kfor, .lp, .kconst, .id "e", .kof, .id "arguments", .rp, .lb],
  [.id "console", .dot, .id "log", .lp, .id "e", .rp],
  [.rb],
  [.rb],
  [.id "foo", .lp, .strLit "bar", .comma, .strLit "zed", .rp]]

/-- Fenced block 9 of `src/iteration.md` (opening fence at line 130). -/
def jbIT9 : JsB :=
  [[.kconst, .id "iterable", .asg, .lb],
  [.lk, .id "Symbol", .dot, .id "iterator", .rk, .lp, .rp, .lb],
  [.klet, .id "data", .asg, .lk, .strLit "foo", .comma, .strLit "bar", .rk],
  [.kret, .lb],
  [.id "next", .lp, .rp, .lb],
  [.kret, .lb],
  [.id "done", .colon, .id "data", .dot, .id "length", .eq3, .num 0, .comma],
  [.id "value", .colon, .id "data", .dot, .id "pop", .lp, .rp],
  [.rb],
  [.rb],
  [.rb],
  [.rb],
  [.rb],
  [.kfor, .lp, .kconst, .id "e", .kof, .id "iterable", .rp, .lb],
  [.id "console", .dot, .id "log", .lp, .id "e", .rp],
  [.rb]]

/-- Fenced block 14 of `src/iteration.md` (opening fence at line 201). -/
def jbIT14 : JsB :=
  [[.kconst, .id "array", .asg, .lk, .strLit "foo", .comma, .strLit "bar", .comma, .strLit "zed", .rk],
  [.kconst, .id "iterator", .asg, .id "array", .lk, .id "Symbol", .dot, .id "iterator", .rk, .lp, .rp],
  [.kfor, .lp, .kconst, .id "e", .kof, .id "iterator", .rp, .lb],
  [.id "console", .dot, .id "log", .lp, .id "e", .rp],
  [.kbreak, .semi],
  [.rb],
  [.kfor, .lp, .kconst, .id "e", .kof, .id "iterator", .rp, .lb],
  [.id "console", .dot, .id "log", .lp, .id "e", .rp],
  [.rb]]

/-- Fenced block 3 of `src/unnamed/part_000` (opening fence at line 45). -/
def jbP03 : JsB :=
  [[.kfun, .star, .id "generator", .lp, .rp, .lb],
  [.lk, .strLit "foo", .comma, .strLit "bar", .rk, .dot, .id "forEach", .lp, .id "e", .arrow, .kyield, .id "e", .rp],
  [.rb]]

/-- Fenced block 4 of `src/unnamed/part_000` (opening fence at line 56). -/
def jbP04 : JsB :=
  [[.kfun, .star, .id "foo", .lp, .rp, .lb],
  [.kyield, .strLit "foo"],
  [.rb],
  [.kfun, .star, .id "bar", .lp, .rp, .lb],
  [.kyield, .strLit "bar"],
  [.id "foo", .lp, .rp],
  [.kyield, .strLit "bar again"],
  [.rb],
  [.kconst, .id "b", .asg, .id "bar", .lp, .rp, .semi],
  [.id "b", .dot, .id "next", .lp, .rp],
  [.id "b", .dot, .id "next", .lp, .rp],
  [.id "b", .dot, .id "next", .lp, .rp]]

/-- Fenced block 5 of `src/unnamed/part_000` (opening fence at line 77). -/
def jbP05 : JsB :=
  [[.kfun, .star, .id "bar", .lp, .rp, .lb],
  [.kyield, .strLit "bar"],
  [.kyield, .star, .id "foo", .lp, .rp],
  [.kyield, .strLit "bar again"],
  [.rb],
  [.kconst, .id "b", .asg, .id "bar", .lp, .rp, .semi],
  [.id "b", .dot, .id "next", .lp, .rp],
  [.id "b", .dot, .id "next", .lp, .rp],
  [.id "b", .dot, .id "next", .lp, .rp],
  [.id "b", .dot, .id "next", .lp, .rp]]

/-- Fenced block 6 of `src/unnamed/part_000` (opening fence at line 94). -/
def jbP06 : JsB :=
  [[.kfor, .lp, .klet, .id "e", .kof, .id "bar", .lp, .rp, .rp, .lb],
  [.id "console", .dot, .id "log", .lp, .id "e", .rp],
  [.rb],
  [.id "console", .dot, .id "log", .lp, .lk, .sprd, .id "bar", .lp, .rp, .rk, .rp]]

/-- Fenced block 7 of `src/unnamed/part_000` (opening fence at line 107). -/
def jbP07 : JsB :=
  [[.kfun, .star, .id "bar", .lp, .rp, .lb],
  [.kyield, .strLit "bar"],
  [.kfor, .lp, .klet, .id "e", .kof, .id "foo", .lp, .rp, .rp, .lb],
  [.kyield, .id "e"],
  [.rb],
  [.kyield, .strLit "bar again"],
  [.rb]]

/-- Fenced block 11 of `src/unnamed/part_000` (opening fence at line 149). -/
def jbP011 : JsB :=
  [[.kfun, .star, .id "generatorWithReturn", .lp, .rp, .lb],
  [.kyield, .strLit "foo"],
  [.kyield, .strLit "bar"],
  [.kret, .strLit "done"],
  [.rb],
  [.kvar, .id "g", .asg, .id "generatorWithReturn", .lp, .rp],
  [.id "g", .dot, .id "next", .lp, .rp],
  [.id "g", .dot, .id "next", .lp, .rp],
  [.id "g", .dot, .id "next", .lp, .rp],
  [.id "g", .dot, .id "next", .lp, .rp]]

/-- Fenced block 12 of `src/unnamed/part_000` (opening fence at line 168). -/
def jbP012 : JsB :=
  [[.kfor, .lp, .klet, .id "e", .kof, .id "g", .rp, .lb],
  [.id "console", .dot, .id "log", .lp, .id "e", .rp],
  [.rb],
  [.id "console", .dot, .id "log", .lp, .lk, .sprd, .id "g", .rk, .rp]]

/-- Fenced block 13 of `src/unnamed/part_000` (opening fence at line 182). -/
def jbP013 : JsB :=
  [[.kfun, .star, .id "foo", .lp, .rp, .lb],
  [.kyield, .strLit "foo"],
  [.kret, .strLit "foo done"],
  [.rb],
  [.kfun, .star, .id "bar", .lp, .rp, .lb],
  [.kyield, .strLit "bar"],
  [.kconst, .id "result", .asg, .kyield, .star, .id "foo", .lp, .rp],
  [.kyield, .id "result"],
  [.rb],
  [.kfor, .lp, .klet, .id "e", .kof, .id "bar", .lp, .rp, .rp, .lb],
  [.id "console", .dot, .id "log", .lp, .id "e", .rp],
  [.rb]]

/-- Fenced block 14 of `src/unnamed/part_000` (opening fence at line 206). -/
def jbP014 : JsB :=
  [[.kfun, .star, .id "generatorWithThrow", .lp, .rp, .lb],
  [.kyield, .strLit "foo"],
  [.kthrow, .knew, .id "Error", .lp, .strLit "Ups!", .rp],
  [.kyield, .strLit "bar"],
  [.rb],
  [.kvar, .id "g", .asg, .id "generatorWithReturn", .lp, .rp],
  [.id "g", .dot, .id "next", .lp, .rp],
  [.id "g", .dot, .id "next", .lp, .rp],
  [.id "g", .dot, .id "next", .lp, .rp]]

/-- Fenced block 15 of `src/unnamed/part_000` (opening fence at line 224). -/
def jbP015 : JsB :=
  [[.kfun, .star, .id "generatorDataConsumer", .lp, .rp, .lb],
  [.id "console", .dot, .id "log", .lp, .strLit "Ready to consume!", .rp],
  [.kwhile, .lp, .ktrue, .rp, .lb],
  [.kconst, .id "input", .asg, .kyield, .semi],
  [.id "console", .dot, .id "log", .lp, .thead "Got: ", .id "input", .ttail "", .rp],
  [.rb],
  [.rb]]

/-- Fenced block 16 of `src/unnamed/part_000` (opening fence at line 238). -/
def jbP016 : JsB :=
  [[.kvar, .id "g", .asg, .id "generatorDataConsumer", .lp, .rp]]

/-- Fenced block 17 of `src/unnamed/part_000` (opening fence at line 246). -/
def jbP017 : JsB :=
  [[.id "g", .dot, .id "next", .lp, .rp]]

/-- Fenced block 18 of `src/unnamed/part_000` (opening fence at line 257). -/
def jbP018 : JsB :=
  [[.id "g", .dot, .id "next", .lp, .strLit "foo", .rp]]

/-- The fenced `js` blocks of `src/README.md`, in order. -/
def readmeJsBlocks : List JsB :=
  [jbR1,
   jbR2,
   jbR3,
   jbR4,
   jbR5,
   jbR6,
   jbR7,
   jbR8,
   jbR9,
   jbR10,
   jbR11,
   jbR12,
   jbR13,
   jbR14,
   jbR15,
   jbR16,
   jbR17,
   jbR18,
   jbR19,
   jbR20,
   jbR21]

/-- The fenced `js` blocks of `src/generators.md`, in order. -/
def generatorsJsBlocks : List JsB :=
  [jbG1,
   jbG2,
   jbG3,
   jbG4,
   jbG5,
   jbG6,
   jbG7,
   jbG8,
   jbG9]

/-- The fenced `js` blocks of `src/iterables-iterators.md`, in order. -/
def iterablesJsBlocks : List JsB :=
  [jbII1,
   jbII2,
   jbII3,
   jbII4,
   jbII5,
   jbII6,
   jbII7,
   jbII8,
   jbII9,
   jbII10,
   jbII11,
   jbII12,
   jbII12,
   jbII14,
   jbII15,
   jbII16,
   jbII17]

/-- The fenced `js` blocks of `src/iteration.md`, in order. -/
def iterationJsBlocks : List JsB :=
  [jbII1,
   jbII2,
   jbII4,
   jbIT4,
   jbIT5,
   jbIT6,
   jbIT7,
   jbIT8,
   jbIT9,
   jbII12,
   jbII12,
   jbII14,
   jbII15,
   jbIT14,
   jbII17]

/-- The fenced `js` blocks of `src/unnamed/part_000`, in order. -/
def part000JsBlocks : List JsB :=
  [jbG1,
   jbG2,
   jbP03,
   jbP04,
   jbP05,
   jbP06,
   jbP07,
   jbG3,
   jbG4,
   jbG5,
   jbP011,
   jbP012,
   jbP013,
   jbP014,
   jbP015,
   jbP016,
   jbP017,
   jbP018,
   jbG6,
   jbG7,
   jbG8,
   jbG9]

/-- The fenced `js` blocks of `src/unnamed/part_001`, in order. -/
def part001JsBlocks : List JsB :=
  [jbG1,
   jbG2,
   jbP03,
   jbP04,
   jbP05,
   jbP06,
   jbP07,
   jbG3,
   jbG4,
   jbG5,
   jbP011,
   jbP012,
   jbP013,
   jbP014,
   jbP015,
   jbP016,
   jbP017,
   jbP018,
   jbG6,
   jbG7,
   jbG8,
   jbG9]

/-- A markdown file together with its fenced `js` blocks. -/
structure MdJsFile where
  name : String
  blocks : List JsB
  deriving DecidableEq

/-- The markdown files of the repository with their fenced blocks. -/
def mdJsFiles : List MdJsFile :=
  [⟨"README.md", readmeJsBlocks⟩,
   ⟨"generators.md", generatorsJsBlocks⟩,
   ⟨"iterables-iterators.md", iterablesJsBlocks⟩,
   ⟨"iteration.md", iterationJsBlocks⟩,
   ⟨"unnamed/part_000", part000JsBlocks⟩,
   ⟨"unnamed/part_001", part001JsBlocks⟩]

/-- The fenced blocks that are deliberately illustrative rather than
parseable JavaScript: the REPL transcript (`jbR6`), the anonymous
`async function ()` sketch (`jbR11`), the top-level `await` line marked
`// Syntax Error.` (`jbR14`), the two `try`-without-`catch` sketches
(`jbG8`, `jbG9`), the two iterator-protocol pseudo-code blocks (`jbII1`,
`jbII2`), the two bare result-object displays (`jbII12`, `jbII14`), and
the `yield`-inside-`forEach`-callback block marked `// SyntaxError`
(`jbP03`). -/
def nonParseableIllustrations : List JsB :=
  [jbR6, jbR11, jbR14, jbG8, jbG9, jbII1, jbII2, jbII12, jbII14, jbP03]

/-! ### File independence (claim C8)

Per source file: the identifiers it binds (declarations, function names,
parameters, catch parameters) and its free references — identifiers it
mentions without binding them anywhere in the file (these resolve to the
runtime's globals or to nothing at all).  No file contains a module
declaration of imports or a `require` call. -/

/-- A source file's identifier bindings and free references. -/
structure SrcFile where
  name : String
  decls : List String
  freeRefs : List String
  deriving DecidableEq

/-- The eleven source files with their bound identifiers and free
references. -/
def srcFiles : List SrcFile :=
  [{ name := "README.md",
     decls := ["foo", "a", "b", "c", "obj", "getRandomWithPromise", "error",
               "resolve", "reject", "getRandomWithGenerator", "generator",
               "g", "onFulfill", "result", "getRandomWithAsync", "random",
               "Random", "aPromise", "bPromise", "thenable"],
     freeRefs := ["Object", "console", "AsyncFunction", "Promise",
                  "setTimeout", "Math", "undefined"] },
   { name := "generators.md",
     decls := ["generator", "g", "iterator", "e", "evenNumbersUntil", "max",
               "value", "fetchStory", "response", "text"],
     freeRefs := ["Symbol", "console", "get", "JSON", "co"] },
   { name := "iterables-iterators.md",
     decls := ["iterable", "iterator", "e", "c", "pair", "foo", "Hugo",
               "data", "array"],
     freeRefs := ["Symbol", "console", "Map", "Set", "arguments", "any",
                  "boolean", "undefined", "done"] },
   { name := "iteration.md",
     decls := ["iterable", "iterator", "e", "c", "pair", "foo", "data",
               "array"],
     freeRefs := ["Symbol", "console", "Map", "Set", "arguments", "any",
                  "boolean", "undefined", "done"] },
   { name := "unnamed/part_000",
     decls := ["generator", "e", "foo", "bar", "b", "g", "iterator",
               "generatorWithReturn", "generatorWithThrow",
               "generatorDataConsumer", "input", "evenNumbersUntil", "max",
               "value", "result", "fetchStory", "response", "text"],
     freeRefs := ["Symbol", "console", "Error", "get", "JSON", "co"] },
   { name := "unnamed/part_001",
     decls := ["generator", "e", "foo", "bar", "b", "g", "iterator",
               "generatorWithReturn", "generatorWithThrow",
               "generatorDataConsumer", "input", "evenNumbersUntil", "max",
               "value", "result", "fetchStory", "response", "text"],
     freeRefs := ["Symbol", "console", "Error", "get", "JSON", "co"] },
   { name := "async-await.js",
     decls := ["getRandomWithPromise", "error", "resolve", "reject",
               "getRandomWithGenerator", "generator", "g", "onFulfill",
               "result", "getRandomWithAsync", "random", "Random", "a", "b",
               "aPromise", "bPromise", "thenable"],
     freeRefs := ["Promise", "setTimeout", "Math", "console"] },
   { name := "unnamed/part_002",
     decls := ["getRandom", "error", "resolve", "reject", "generator", "g",
               "onFulfill", "result", "random", "value"],
     freeRefs := ["Promise", "setTimeout", "Math", "console"] },
   { name := "object.js",
     decls := ["obj"],
     freeRefs := ["Object", "console"] },
   { name := "string.js",
     decls := [],
     freeRefs := ["undefined"] },
   { name := "unnamed/part_003",
     decls := ["foo", "a", "b", "c"],
     freeRefs := [] }]

/-! ### File formats (claim C9) -/

/-- The formats present in the repository. -/
inductive FileFormat where
  | markdown
  | javascript
  deriving DecidableEq, Repr

/-- Every file of the repository with its format. -/
def repoFiles : List (String × FileFormat) :=
  [("README.md", .markdown),
   ("async-await.js", .javascript),
   ("generators.md", .markdown),
   ("iterables-iterators.md", .markdown),
   ("iteration.md", .markdown),
   ("object.js", .javascript),
   ("string.js", .javascript),
   ("unnamed/part_000", .markdown),
   ("unnamed/part_001", .markdown),
   ("unnamed/part_002", .javascript),
   ("unnamed/part_003", .javascript)]

/-- The fenced-block list of a markdown file, by name. -/
def mdBlocksOf (n : String) : List JsB :=
  ((mdJsFiles.find? (fun f => f.name == n)).map (·.blocks)).getD []

/-! ### Frame / effect model of the snippets (claim C10)

The external runtime APIs that the snippets invoke.  Modelled from the
spec: the snippets' only collaborators are the language runtime's
standard globals; their effect classification below (what writes state
outside the snippet, what reaches a network or a store) is that of the
standard ECMAScript / host APIs. -/

/-- The external API touchpoints occurring in the snippets.  `unboundGet`
and `unboundCo` are the references to the undefined identifiers `get` and
`co`: evaluating them throws a `ReferenceError` before anything external
could be reached. -/
inductive ExternCall where
  | consoleLog
  | setTimeout
  | mathRandom
  | mathFloor
  | promiseNew
  | promiseAll
  | objectValues
  | objectEntries
  | objectGetOPD
  | objectGetProto
  | symbolIterator
  | mapNew
  | setNew
  | errorNew
  | jsonParse
  | stringPad
  | unboundGet
  | unboundCo
  deriving DecidableEq, Repr

/-- Modelled from the spec: does the API write any state that survives
outside the snippet's own in-memory values (files, databases, globals of
other files)?  None of the listed APIs does. -/
def touchesPersistentState : ExternCall → Bool := fun _ => false

/-- Modelled from the spec: does the API reach a network service?  None of
the listed APIs does (`get('story.json')` never executes: `get` is
unbound and the enclosing `fetchStory` is never called). -/
def touchesNetwork : ExternCall → Bool := fun _ => false

/-- Modelled from the spec: does the API reach a data store?  None does. -/
def touchesDataStore : ExternCall → Bool := fun _ => false

/-- Modelled from the spec: does the API have any externally visible
effect at all?  Only console output and timer scheduling qualify; the
rest are pure computations, pure reads, or throw inside the snippet. -/
def hasExternalEffect : ExternCall → Bool
  | .consoleLog => true
  | .setTimeout => true
  | _ => false

/-- Per file: the external API touchpoints its snippets contain. -/
structure SnippetFile where
  name : String
  calls : List ExternCall
  deriving DecidableEq

/-- The external API touchpoints of every snippet-bearing file. -/
def snippetFiles : List SnippetFile :=
  [⟨"README.md",
    [.promiseNew, .setTimeout, .mathFloor, .mathRandom, .consoleLog,
     .promiseAll, .objectValues, .objectEntries, .objectGetOPD,
     .objectGetProto, .stringPad]⟩,
   ⟨"generators.md",
    [.consoleLog, .symbolIterator, .jsonParse, .unboundGet, .unboundCo]⟩,
   ⟨"iterables-iterators.md",
    [.consoleLog, .symbolIterator, .mapNew, .setNew]⟩,
   ⟨"iteration.md",
    [.consoleLog, .symbolIterator, .mapNew, .setNew]⟩,
   ⟨"unnamed/part_000",
    [.consoleLog, .symbolIterator, .errorNew, .jsonParse, .unboundGet,
     .unboundCo]⟩,
   ⟨"unnamed/part_001",
    [.consoleLog, .symbolIterator, .errorNew, .jsonParse, .unboundGet,
     .unboundCo]⟩,
   ⟨"async-await.js",
    [.promiseNew, .setTimeout, .mathFloor, .mathRandom, .consoleLog,
     .promiseAll]⟩,
   ⟨"unnamed/part_002",
    [.promiseNew, .setTimeout, .mathFloor, .mathRandom, .consoleLog]⟩,
   ⟨"object.js",
    [.objectValues, .objectEntries, .objectGetOPD, .consoleLog]⟩,
   ⟨"string.js", [.stringPad]⟩,
   ⟨"unnamed/part_003", []⟩]

/-! ## Helper lemmas -/

/-- Closed form of the `evenNumbersUntil` loop from any even start
value. -/
lemma evenLoop_closed (max : Nat) :
    ∀ n v, max + 1 - v ≤ n → v % 2 = 0 →
      evenLoop max v = (List.range ((max + 2 - v) / 2)).map (fun k => v + 2 * k) := by
  intro n
  induction n with
  | zero =>
    intro v hn _
    have hv : ¬ v ≤ max := by omega
    have h0 : (max + 2 - v) / 2 = 0 := by omega
    rw [evenLoop]
    simp [hv, h0]
  | succ n ih =>
    intro v hn hv
    by_cases h : v ≤ max
    · rw [evenLoop]
      simp only [h, if_true, hv, if_pos]
      rw [ih (v + 2) (by omega) (by omega)]
      have h2 : (max + 2 - v) / 2 = (max - v) / 2 + 1 := by omega
      have h3 : (max + 2 - (v + 2)) / 2 = (max - v) / 2 := by omega
      rw [h2, h3, List.range_succ_eq_map]
      simp only [List.map_cons, List.map_map, Nat.mul_zero, Nat.add_zero,
        List.singleton_append]
      congr 1
      exact List.map_congr_left fun k _ => by
        simp only [Function.comp_apply, Nat.succ_eq_add_one]
        omega
    · have h0 : (max + 2 - v) / 2 = 0 := by omega
      rw [evenLoop]
      simp [h, h0]

/-- The guard `value % 2 === 0` inside `evenNumbersUntil` never fails:
from an even start the loop equals its guard-free variant. -/
lemma evenLoop_guard_redundant (max : Nat) :
    ∀ n v, max + 1 - v ≤ n → v % 2 = 0 →
      evenLoop max v = evenLoopNoGuard max v := by
  intro n
  induction n with
  | zero =>
    intro v hn _
    have hv : ¬ v ≤ max := by omega
    rw [evenLoop, evenLoopNoGuard]
    simp [hv]
  | succ n ih =>
    intro v hn hv
    by_cases h : v ≤ max
    · rw [evenLoop, evenLoopNoGuard]
      simp only [h, if_true, hv, if_pos]
      rw [ih (v + 2) (by omega) (by omega)]
      simp
    · rw [evenLoop, evenLoopNoGuard]
      simp [h]

/-! ## Claim theorems -/

/-- Claim C1, counterexample: the claim "every fenced code block is
syntactically parseable by a standard parser for the language the fence
declares" fails on concrete blocks of the repository: the iterator-
protocol pseudo-code block of `src/iterables-iterators.md` (lines 22-26)
and the `yield`-inside-`forEach`-callback block of `src/unnamed/part_000`
(lines 45-50, marked `// SyntaxError` in the source itself) are fenced as
`js` but are not parseable JavaScript. -/
theorem fencedBlock_counterexample :
    jbII1 ∈ iterablesJsBlocks ∧ jsAccept jbII1 = false ∧
    jbP03 ∈ part000JsBlocks ∧ jsAccept jbP03 = false := by decide

set_option maxRecDepth 40000 in
/-- Claim C1, amended: every fenced `js` code block of every markdown
file, except the ten deliberately illustrative non-programs (REPL
transcript, anonymous `async function` sketch, top-level-`await` line,
the `try`-without-`catch` sketches, the protocol pseudo-code, the bare
result-object displays, and the `yield`-in-callback SyntaxError demo), is
parseable JavaScript. -/
theorem fencedBlocks_parse :
    ∀ f ∈ mdJsFiles, ∀ b ∈ f.blocks,
      b ∉ nonParseableIllustrations → jsAccept b = true := by decide

/-- Claim C1, witness: the amended theorem applied to the
`getRandomWithPromise` block of the README. -/
theorem fencedBlocks_parse_witness : jsAccept jbR7 = true :=
  fencedBlocks_parse ⟨"README.md", readmeJsBlocks⟩ (by decide) jbR7
    (by decide) (by decide)

/-- Claim C2: every internal anchor link of every markdown file's table
of contents resolves to a heading of the same file under GitHub's slug
generation (including the `-1` disambiguation of `#async--await-1` and
`#yield-1`). -/
theorem tocAnchors_resolve :
    ∀ f ∈ mdAnchorFiles, ∀ l ∈ f.links, l ∈ anchors f.headings := by decide

/-- Claim C2, witness: the anchor resolution theorem applied to the
README's `#async--await-1` link. -/
theorem tocAnchors_resolve_witness :
    "async--await-1" ∈ anchors readmeAnchors.headings :=
  tocAnchors_resolve readmeAnchors (by decide) "async--await-1" (by decide)

/-- Claim C3: a complete `for-of` iteration over the pop-based example
iterable (`data = ['foo','bar']`, `done` from `data.length === 0`, then
`value` from `data.pop()`) yields exactly two elements in the reverse
order of the array — `'bar'` first, then `'foo'`, which is not the order
`'foo'`, `'bar'` shown in the source's output comments — and then stops
with `done` true and `value` undefined. -/
theorem popIterable_forOf_trace :
    forOf ["foo", "bar"] =
      ([some "bar", some "foo"], { done := true, value := none }) ∧
    ([some "bar", some "foo"] : List (Option String)) ≠
      [some "foo", some "bar"] := by decide

/-- Claim C4, counterexample: not every `next()` result of the
repository's iterators carries both a `value` key and a `done` key — the
closable iterable's very first `next()` result has no `done` key, and its
`next()` after completion has no `value` key. -/
theorem closableNext_omits_keys :
    (closableNext closableInit).1.doneKey = none ∧
    (closableNext { done := true, data := ["foo", "bar", "zed"] }).1.valueKey
      = none := by decide

/-- Claim C4, amended: every `next()` result of the closable iterable
carries the value and the completion flag at least implicitly, with the
defaults the source text states: a result that omits `done` denotes
`done` false and carries an explicit `value`, and a result that omits
`value` carries an explicit `done` true (absent `value` reading as
`undefined`); reading the absent `done` key the way a consumer does gives
exactly the iterator's completion state. -/
theorem closableNext_defaulted_keys (s : CState) :
    (((closableNext s).1.doneKey = some true ∧
        (closableNext s).1.valueKey = none) ∨
      ((closableNext s).1.doneKey = none ∧
        ((closableNext s).1.valueKey).isSome = true)) ∧
    effectiveDone (closableNext s).1 = (s.done || s.data.length == 0) := by
  by_cases h : (s.done || s.data.length == 0) = true
  · simp [closableNext, h, effectiveDone]
  · have hne : s.data ≠ [] := by
      intro hnil
      apply h
      simp [hnil]
    simp [closableNext, h, effectiveDone, pop, List.getLast?_isSome]
    exact hne

/-- Claim C5: the promise returned by `getRandomWithAsync` never rejects:
whatever the inner `getRandomWithPromise` call does, the async function
fulfills — with the random number on resolution, and with the rejection
reason `'some error'` on rejection, because the `catch` block returns the
error instead of rethrowing. -/
theorem getRandomWithAsync_never_rejects (error : Bool) (rand : Nat) :
    getRandomWithAsync error rand =
      .fulfilled (if error then JSVal.str "some error" else JSVal.num rand) := by
  cases error <;> rfl

/-- Claim C6: for every non-negative `max`, `evenNumbersUntil max`
terminates (it is a total function) and yields exactly the even numbers
`0, 2, …` up to the largest even number not exceeding `max`, in
increasing order — the closed form `[2*0, …, 2*(max/2)]` — and the
`value % 2 === 0` guard inside the loop is always true: erasing it does
not change the yielded values. -/
theorem evenNumbersUntil_spec (max : Nat) :
    evenNumbersUntil max = (List.range (max / 2 + 1)).map (fun k => 2 * k) ∧
    evenNumbersUntil max = evenLoopNoGuard max 0 := by
  constructor
  · unfold evenNumbersUntil
    rw [evenLoop_closed max (max + 1) 0 (by omega) (by omega)]
    have h : (max + 2 - 0) / 2 = max / 2 + 1 := by omega
    rw [h]
    simp
  · exact evenLoop_guard_redundant max (max + 1) 0 (by omega) (by omega)

/-- Claim C7: awaiting the snippet's thenable — whose `then(resolve)`
calls `resolve(45)` — yields 45; awaiting the non-promise value 3 yields
3; and in general awaiting any thenable that passes `v` to its resolve
callback yields `v`. -/
theorem await_thenable_unwraps :
    awaitOp thenable = .fulfilled (.num 45) ∧
    awaitOp (.plain (.num 3)) = .fulfilled (.num 3) ∧
    ∀ v : JSVal, awaitOp (.withThen fun resolve => resolve v) = .fulfilled v :=
  ⟨rfl, rfl, fun _ => rfl⟩

/-- Claim C8: the source files are independent: no free reference of any
file is bound by another file (so no file calls into, reads, or depends
on another), and no file references `require`; the files contain no
module-import declarations either. -/
theorem files_independent :
    (∀ f ∈ srcFiles, ∀ g2 ∈ srcFiles, f.name ≠ g2.name →
      ∀ x ∈ f.freeRefs, x ∉ g2.decls) ∧
    ∀ f ∈ srcFiles, "require" ∉ f.freeRefs := by decide

/-- Claim C8, witness: the independence theorem applied to `string.js`
against `unnamed/part_003`. -/
theorem files_independent_witness :
    "undefined" ∉ (SrcFile.mk "unnamed/part_003" ["foo", "a", "b", "c"] []).decls :=
  files_independent.1 ⟨"string.js", [], ["undefined"]⟩ (by decide)
    ⟨"unnamed/part_003", ["foo", "a", "b", "c"], []⟩ (by decide) (by decide)
    "undefined" (by decide)

/-- Claim C9, counterexample: not every file of the repository is a
markdown file — `string.js` is a JavaScript snippet file. -/
theorem repo_contains_javascript_file :
    ("string.js", FileFormat.javascript) ∈ repoFiles ∧
    FileFormat.javascript ≠ FileFormat.markdown := by decide

/-- Claim C9, amended: every file of the repository is either a
CommonMark markdown file — in which case it has fenced `js` code blocks —
or a standalone JavaScript snippet file; no third format is present. -/
theorem repo_file_formats :
    ∀ f ∈ repoFiles,
      (f.2 = FileFormat.markdown ∨ f.2 = FileFormat.javascript) ∧
      (f.2 = FileFormat.markdown → mdBlocksOf f.1 ≠ []) := by decide

/-- Claim C9, witness: the format theorem applied to the README. -/
theorem repo_file_formats_witness :
    (FileFormat.markdown = FileFormat.markdown ∨
      FileFormat.markdown = FileFormat.javascript) ∧
    (FileFormat.markdown = FileFormat.markdown → mdBlocksOf "README.md" ≠ []) :=
  repo_file_formats ("README.md", .markdown) (by decide)

/-- Claim C10: no snippet of any file touches persistent state, a
network service, or a data store, and every external API a snippet
invokes that has an externally visible effect at all is console output or
timer scheduling. -/
theorem snippets_only_console_and_timers :
    ∀ f ∈ snippetFiles, ∀ c ∈ f.calls,
      touchesPersistentState c = false ∧ touchesNetwork c = false ∧
      touchesDataStore c = false ∧
      (hasExternalEffect c = true →
        (c = ExternCall.consoleLog ∨ c = ExternCall.setTimeout)) := by decide

/-- Claim C10, witness: the frame theorem applied to `object.js` and its
`console.log` call. -/
theorem snippets_only_console_and_timers_witness :
    touchesPersistentState ExternCall.consoleLog = false ∧
    touchesNetwork ExternCall.consoleLog = false ∧
    touchesDataStore ExternCall.consoleLog = false ∧
    (hasExternalEffect ExternCall.consoleLog = true →
      (ExternCall.consoleLog = ExternCall.consoleLog ∨
        ExternCall.consoleLog = ExternCall.setTimeout)) :=
  snippets_only_console_and_timers
    ⟨"object.js", [.objectValues, .objectEntries, .objectGetOPD, .consoleLog]⟩
    (by decide) .consoleLog (by decide)

end ES8
